import Mathlib

/-!
Verification of the USC Builds termination-risk simulator (`uscsl.py`).

The reproducible core of the program is:
  * the artifact loader `load_model_and_schema`;
  * the feature-row assembly (`row = {c: 0 for c in ALL_COLS}` followed by
    `row.update({...})` with the five behavioral inputs plus the fixed
    `Trade`/`Dept` role context);
  * the confidence labeler `get_confidence_label`;
  * the driver explainer `get_driver_messages`;
  * the binary decision `predicted_leave = int(risk >= 0.50)`.

Python numbers are modelled by `ℚ` (floats and ints in the program stay on
exact decimal values), a Python dict by an association list with Python's
insertion-order update semantics, and the filesystem probed by the loader by
a record of optional file contents.
-/

/-- A scalar value stored in the feature row: numeric or categorical string. -/
inductive Value where
  | num (q : ℚ)
  | str (s : String)
deriving DecidableEq, Repr

/-- A feature row: mapping from column name to value, insertion ordered,
keys unique by construction (mirrors a Python `dict`). -/
abbrev Row := List (String × Value)

/-- The keys of a row, in insertion order (mirrors `dict.keys()`). -/
def Row.keys (r : Row) : List String := r.map Prod.fst

/-- Lookup of a key in a row (mirrors `dict.__getitem__` / `get`). -/
def Row.lookup : Row → String → Option Value
  | [], _ => none
  | p :: r, k => if p.1 = k then some p.2 else Row.lookup r k

/-- Whether a key is present (mirrors `k in dict`). -/
def Row.containsKey : Row → String → Bool
  | [], _ => false
  | p :: r, k => p.1 = k || Row.containsKey r k

/-- Replace the value at every entry whose key is `k`. -/
def Row.setKey : Row → String → Value → Row
  | [], _, _ => []
  | p :: r, k, v =>
    if p.1 = k then (k, v) :: Row.setKey r k v else p :: Row.setKey r k v

/-- `dict[k] = v` semantics: overwrite in place if the key exists, else
append at the end (Python dicts preserve first-insertion order). -/
def Row.updateKey (r : Row) (k : String) (v : Value) : Row :=
  if r.containsKey k then r.setKey k v else r ++ [(k, v)]

/-- `{c: 0 for c in cols}` built left to right into an accumulator. -/
def initRowAux : Row → List String → Row
  | acc, [] => acc
  | acc, c :: cs => initRowAux (acc.updateKey c (Value.num 0)) cs

/-- `row = {c: 0 for c in ALL_COLS}` (line 182 of `uscsl.py`). -/
def initRow (cols : List String) : Row := initRowAux [] cols

/-- `DEFAULT_TRADE = "CARP"` (line 41). -/
def DEFAULT_TRADE : String := "CARP"

/-- `DEFAULT_DEPT = "FIELD"` (line 42). -/
def DEFAULT_DEPT : String := "FIELD"

/-- Lines 182-193 of `uscsl.py`: zero-fill every schema column, then
`row.update` with the five behavioral inputs and the fixed role context.
`dict.update` writes its entries in literal order, overwriting keys that
already exist and appending keys that do not. -/
def assembleRow (all_cols : List String) (attendance_ratio avg_weekly_hours : ℚ)
    (zero_weeks gap_days : ℤ) (nonpaid_abs : ℚ) : Row :=
  let r := initRow all_cols
  let r := r.updateKey "attendance_ratio_lkbk" (Value.num attendance_ratio)
  let r := r.updateKey "avg_weekly_hours_lkbk" (Value.num avg_weekly_hours)
  let r := r.updateKey "zero_weeks_lkbk" (Value.num zero_weeks)
  let r := r.updateKey "gap_days_since_work" (Value.num gap_days)
  let r := r.updateKey "nonpaid_abs_hours_lkbk" (Value.num nonpaid_abs)
  let r := r.updateKey "Trade" (Value.str DEFAULT_TRADE)
  r.updateKey "Dept" (Value.str DEFAULT_DEPT)

/-- The seven column names written by the `row.update` call, in order. -/
def overwrittenNames : List String :=
  ["attendance_ratio_lkbk", "avg_weekly_hours_lkbk", "zero_weeks_lkbk",
   "gap_days_since_work", "nonpaid_abs_hours_lkbk", "Trade", "Dept"]

/-! ### Association-list lemmas -/

lemma Row.containsKey_iff (r : Row) (k : String) :
    r.containsKey k = true ↔ k ∈ r.keys := by
  induction r with
  | nil => simp [Row.containsKey, Row.keys]
  | cons p r ih =>
    rw [Row.containsKey]
    simp only [Bool.or_eq_true, decide_eq_true_eq, ih, Row.keys,
      List.map_cons, List.mem_cons]
    constructor
    · rintro (h | h)
      · exact Or.inl h.symm
      · exact Or.inr h
    · rintro (h | h)
      · exact Or.inl h.symm
      · exact Or.inr h

lemma Row.keys_setKey (r : Row) (k : String) (v : Value) :
    (r.setKey k v).keys = r.keys := by
  induction r with
  | nil => rfl
  | cons p r ih =>
    by_cases h : p.1 = k
    · have hs : Row.setKey (p :: r) k v = (k, v) :: Row.setKey r k v := by
        simp [Row.setKey, h]
      rw [hs]
      simp only [Row.keys, List.map_cons] at ih ⊢
      rw [ih, h]
    · have hs : Row.setKey (p :: r) k v = p :: Row.setKey r k v := by
        simp [Row.setKey, h]
      rw [hs]
      simp only [Row.keys, List.map_cons] at ih ⊢
      rw [ih]

lemma Row.mem_keys_updateKey (r : Row) (k : String) (v : Value) (x : String) :
    x ∈ (r.updateKey k v).keys ↔ x ∈ r.keys ∨ x = k := by
  by_cases h : r.containsKey k = true
  · rw [Row.updateKey, if_pos h, Row.keys_setKey]
    rw [Row.containsKey_iff] at h
    constructor
    · exact Or.inl
    · rintro (hx | rfl)
      · exact hx
      · exact h
  · rw [Row.updateKey, if_neg h]
    simp [Row.keys]

lemma Row.lookup_setKey_self (r : Row) (k : String) (v : Value)
    (h : r.containsKey k = true) : (r.setKey k v).lookup k = some v := by
  induction r with
  | nil => simp [Row.containsKey] at h
  | cons p r ih =>
    simp [Row.containsKey] at h
    by_cases hp : p.1 = k
    · simp [Row.setKey, hp, Row.lookup]
    · simp [hp] at h
      simp [Row.setKey, hp, Row.lookup, ih h]

lemma Row.lookup_setKey_ne (r : Row) (k : String) (v : Value) (x : String)
    (h : x ≠ k) : (r.setKey k v).lookup x = r.lookup x := by
  induction r with
  | nil => simp [Row.setKey]
  | cons p r ih =>
    by_cases hp : p.1 = k
    · have : ¬ (k = x) := fun hkx => h hkx.symm
      simp [Row.setKey, hp, Row.lookup, this, ih, hp.symm ▸ this]
    · simp [Row.setKey, hp, Row.lookup, ih]

lemma Row.lookup_append_right (r s : Row) (k : String)
    (h : r.containsKey k = false) : (r ++ s).lookup k = s.lookup k := by
  induction r with
  | nil => simp
  | cons p r ih =>
    simp [Row.containsKey] at h
    simp [Row.lookup, h.1, ih h.2]

lemma Row.lookup_append_singleton_ne (r : Row) (k : String) (v : Value)
    (x : String) (hx : x ≠ k) : (r ++ [(k, v)]).lookup x = r.lookup x := by
  induction r with
  | nil =>
    have hkx : ¬ (k = x) := fun hkx => hx hkx.symm
    simp [Row.lookup, hkx]
  | cons p r ih =>
    simp only [List.cons_append, Row.lookup]
    by_cases hp : p.1 = x <;> simp [hp, ih]

lemma Row.lookup_updateKey (r : Row) (k : String) (v : Value) (x : String) :
    (r.updateKey k v).lookup x = if x = k then some v else r.lookup x := by
  by_cases hx : x = k
  · subst hx
    by_cases h : r.containsKey x = true
    · rw [Row.updateKey, if_pos h, if_pos rfl, Row.lookup_setKey_self r x v h]
    · simp only [Bool.not_eq_true] at h
      rw [Row.updateKey, if_neg (by simp [h]), if_pos rfl,
        Row.lookup_append_right r _ x h]
      simp [Row.lookup]
  · by_cases h : r.containsKey k = true
    · rw [Row.updateKey, if_pos h, if_neg hx, Row.lookup_setKey_ne r k v x hx]
    · rw [Row.updateKey, if_neg h, if_neg hx,
        Row.lookup_append_singleton_ne r k v x hx]

lemma mem_keys_initRowAux (acc : Row) (cols : List String) (k : String) :
    k ∈ (initRowAux acc cols).keys ↔ k ∈ acc.keys ∨ k ∈ cols := by
  induction cols generalizing acc with
  | nil => simp [initRowAux]
  | cons c cs ih =>
    simp [initRowAux, ih, Row.mem_keys_updateKey]
    tauto

lemma mem_keys_initRow (cols : List String) (k : String) :
    k ∈ (initRow cols).keys ↔ k ∈ cols := by
  rw [initRow, mem_keys_initRowAux]
  simp [Row.keys]

lemma lookup_initRowAux (acc : Row) (cols : List String) (k : String)
    (h : acc.lookup k = some (Value.num 0) ∨ k ∈ cols) :
    (initRowAux acc cols).lookup k = some (Value.num 0) := by
  induction cols generalizing acc with
  | nil => simpa [initRowAux] using h.resolve_right (by simp)
  | cons c cs ih =>
    simp only [initRowAux]
    apply ih
    by_cases hk : k = c
    · left; simp [Row.lookup_updateKey, hk]
    · rcases h with h | h
      · left; simp [Row.lookup_updateKey, hk, h]
      · right
        rcases List.mem_cons.mp h with h | h
        · exact absurd h hk
        · exact h

lemma lookup_initRow_of_mem (cols : List String) (k : String) (h : k ∈ cols) :
    (initRow cols).lookup k = some (Value.num 0) := by
  exact lookup_initRowAux [] cols k (Or.inr h)

/-! ### Rule functions (lines 200-257 of `uscsl.py`) -/

/-- Lines 200-209: simple heuristic based on distance from 0.5, evaluated as
an ordered if/elif/else chain. -/
def get_confidence_label (prob : ℚ) : String :=
  if 0.45 ≤ prob ∧ prob ≤ 0.55 then "Low"
  else if 0.35 ≤ prob ∧ prob ≤ 0.65 then "Medium"
  else "High"

/-- Lines 212-257: rule-based explanation of key behavioral drivers; the
list is grown by five independent if/elif(/else) chains, one per input. -/
def get_driver_messages (attendance_ratio avg_weekly_hours : ℚ)
    (zero_weeks gap_days : ℤ) (nonpaid_abs : ℚ) : List String :=
  let drivers : List String := []
  let drivers :=
    if attendance_ratio < 0.70 then
      drivers ++ ["Low attendance ratio compared to expected hours."]
    else if attendance_ratio > 0.95 then
      drivers ++ ["Consistently meeting expected hours (strong attendance)."]
    else drivers
  let drivers :=
    if avg_weekly_hours < 32 then
      drivers ++ ["Working substantially fewer hours than a typical full-time worker."]
    else if 35 ≤ avg_weekly_hours ∧ avg_weekly_hours ≤ 45 then
      drivers ++ ["Weekly hours are in a healthy full-time range."]
    else drivers
  let drivers :=
    if zero_weeks = 0 then
      drivers ++ ["No zero-hour weeks recorded, indicating steady engagement."]
    else if zero_weeks ≥ 3 then
      drivers ++ ["Several zero-hour weeks, which often precede termination."]
    else
      drivers ++ ["Some gaps (zero-hour weeks), but not extreme."]
  let drivers :=
    if gap_days = 0 then
      drivers ++ ["No current gap since last worked."]
    else if gap_days > 21 then
      drivers ++ ["Long gap since last worked, a strong signal of disengagement."]
    else drivers
  let drivers :=
    if nonpaid_abs = 0 then
      drivers ++ ["No unpaid absence recorded."]
    else if nonpaid_abs > 20 then
      drivers ++ ["High unpaid absence hours, which may reflect instability or issues."]
    else drivers
  drivers

/-- The contribution of the attendance-ratio chain (lines 226-229). -/
def attendanceDrivers (attendance_ratio : ℚ) : List String :=
  if attendance_ratio < 0.70 then
    ["Low attendance ratio compared to expected hours."]
  else if attendance_ratio > 0.95 then
    ["Consistently meeting expected hours (strong attendance)."]
  else []

/-- The contribution of the weekly-hours chain (lines 232-235). -/
def hoursDrivers (avg_weekly_hours : ℚ) : List String :=
  if avg_weekly_hours < 32 then
    ["Working substantially fewer hours than a typical full-time worker."]
  else if 35 ≤ avg_weekly_hours ∧ avg_weekly_hours ≤ 45 then
    ["Weekly hours are in a healthy full-time range."]
  else []

/-- The contribution of the zero-hour-weeks chain (lines 238-243); its
else branch is unconditional, so it always yields one message. -/
def zeroWeeksDrivers (zero_weeks : ℤ) : List String :=
  if zero_weeks = 0 then
    ["No zero-hour weeks recorded, indicating steady engagement."]
  else if zero_weeks ≥ 3 then
    ["Several zero-hour weeks, which often precede termination."]
  else
    ["Some gaps (zero-hour weeks), but not extreme."]

/-- The contribution of the gap-days chain (lines 246-249). -/
def gapDaysDrivers (gap_days : ℤ) : List String :=
  if gap_days = 0 then
    ["No current gap since last worked."]
  else if gap_days > 21 then
    ["Long gap since last worked, a strong signal of disengagement."]
  else []

/-- The contribution of the unpaid-absence chain (lines 252-255). -/
def nonpaidAbsDrivers (nonpaid_abs : ℚ) : List String :=
  if nonpaid_abs = 0 then
    ["No unpaid absence recorded."]
  else if nonpaid_abs > 20 then
    ["High unpaid absence hours, which may reflect instability or issues."]
  else []

/-- Line 265: `predicted_leave = int(risk >= 0.50)`. -/
def predicted_leave (risk : ℚ) : ℤ :=
  if risk ≥ 0.50 then 1 else 0

/-- Lines 278-285: the displayed prediction headline. -/
def prediction_message (risk : ℚ) : String :=
  if predicted_leave risk = 1 then "Likely to Leave / Terminate"
  else "Likely to Stay"

/-! ### Artifact loader (lines 15-34 of `uscsl.py`) -/

/-- `MODEL_PATH = os.path.join(ARTIFACT_DIR, "termination_model.joblib")`. -/
def MODEL_PATH : String := "artifacts/termination_model.joblib"

/-- `SCHEMA_PATH = os.path.join(ARTIFACT_DIR, "feature_schema.json")`. -/
def SCHEMA_PATH : String := "artifacts/feature_schema.json"

/-- The filesystem as the loader observes it: the content of the model file
and of the schema file, each `none` when the file is absent. `α` is the
opaque deserialized model object, `β` the parsed schema document. -/
structure FileSystem (α β : Type) where
  modelFile : Option α
  schemaFile : Option β

/-- The failure kind of the loader: `st.error(...)` followed by `st.stop()`. -/
inductive LoadError where
  | missingArtifact (msg : String)
deriving DecidableEq, Repr

/-- Lines 22-34: check the model file, then the schema file; `st.stop()`
halts the script, surfacing no partial state, modelled by `Except.error`.
Only when both files exist are the model and the schema returned. -/
def load_model_and_schema {α β : Type} (fs : FileSystem α β) :
    Except LoadError (α × β) :=
  match fs.modelFile with
  | none => .error (.missingArtifact
      ("Model not found: " ++ MODEL_PATH ++ ". Train/save it first."))
  | some model =>
    match fs.schemaFile with
    | none => .error (.missingArtifact
        ("Schema not found: " ++ SCHEMA_PATH ++ ". Save feature_schema.json first."))
    | some schema => .ok (model, schema)

/-! ### Driver-explainer lemmas -/

lemma append_ite_chain (L : List String) (c d : Prop) [Decidable c]
    [Decidable d] (x y : List String) :
    (if c then L ++ x else if d then L ++ y else L) =
      L ++ (if c then x else if d then y else []) := by
  split_ifs <;> simp

lemma append_ite_chain_else (L : List String) (c d : Prop) [Decidable c]
    [Decidable d] (x y z : List String) :
    (if c then L ++ x else if d then L ++ y else L ++ z) =
      L ++ (if c then x else if d then y else z) := by
  split_ifs <;> rfl

/-- The driver list is the concatenation, in input order, of the five
per-input contributions. -/
lemma get_driver_messages_decomp (a h : ℚ) (z g : ℤ) (n : ℚ) :
    get_driver_messages a h z g n =
      attendanceDrivers a ++ hoursDrivers h ++ zeroWeeksDrivers z ++
        gapDaysDrivers g ++ nonpaidAbsDrivers n := by
  unfold get_driver_messages attendanceDrivers hoursDrivers zeroWeeksDrivers
    gapDaysDrivers nonpaidAbsDrivers
  simp only [append_ite_chain, append_ite_chain_else, List.nil_append,
    List.append_assoc]

lemma length_attendanceDrivers (a : ℚ) : (attendanceDrivers a).length ≤ 1 := by
  unfold attendanceDrivers; split_ifs <;> simp

lemma length_hoursDrivers (h : ℚ) : (hoursDrivers h).length ≤ 1 := by
  unfold hoursDrivers; split_ifs <;> simp

lemma length_zeroWeeksDrivers (z : ℤ) : (zeroWeeksDrivers z).length = 1 := by
  unfold zeroWeeksDrivers; split_ifs <;> simp

lemma length_gapDaysDrivers (g : ℤ) : (gapDaysDrivers g).length ≤ 1 := by
  unfold gapDaysDrivers; split_ifs <;> simp

lemma length_nonpaidAbsDrivers (n : ℚ) : (nonpaidAbsDrivers n).length ≤ 1 := by
  unfold nonpaidAbsDrivers; split_ifs <;> simp

lemma mem_attendanceDrivers {m : String} {a : ℚ} (hm : m ∈ attendanceDrivers a) :
    m = "Low attendance ratio compared to expected hours." ∨
    m = "Consistently meeting expected hours (strong attendance)." := by
  unfold attendanceDrivers at hm
  split_ifs at hm <;> simp_all

lemma mem_hoursDrivers {m : String} {h : ℚ} (hm : m ∈ hoursDrivers h) :
    m = "Working substantially fewer hours than a typical full-time worker." ∨
    m = "Weekly hours are in a healthy full-time range." := by
  unfold hoursDrivers at hm
  split_ifs at hm <;> simp_all

lemma mem_zeroWeeksDrivers {m : String} {z : ℤ} (hm : m ∈ zeroWeeksDrivers z) :
    m = "No zero-hour weeks recorded, indicating steady engagement." ∨
    m = "Several zero-hour weeks, which often precede termination." ∨
    m = "Some gaps (zero-hour weeks), but not extreme." := by
  unfold zeroWeeksDrivers at hm
  split_ifs at hm <;> simp_all

lemma mem_gapDaysDrivers {m : String} {g : ℤ} (hm : m ∈ gapDaysDrivers g) :
    m = "No current gap since last worked." ∨
    m = "Long gap since last worked, a strong signal of disengagement." := by
  unfold gapDaysDrivers at hm
  split_ifs at hm <;> simp_all

lemma mem_nonpaidAbsDrivers {m : String} {n : ℚ} (hm : m ∈ nonpaidAbsDrivers n) :
    m = "No unpaid absence recorded." ∨
    m = "High unpaid absence hours, which may reflect instability or issues." := by
  unfold nonpaidAbsDrivers at hm
  split_ifs at hm <;> simp_all

/-- The schema of the end-to-end scenario in the specification. -/
def scenarioSchema : List String :=
  ["attendance_ratio_lkbk", "avg_weekly_hours_lkbk", "zero_weeks_lkbk",
   "gap_days_since_work", "nonpaid_abs_hours_lkbk", "Trade"]

/-! ### Claim theorems -/

/-- C1, counterexample: the claim that the assembled row's key set equals the
schema exactly, and that a "Trade" key is never added when "Trade" is absent
from the schema, is false: for the one-column schema
`["attendance_ratio_lkbk"]` the code still writes a "Trade" key. -/
theorem trade_written_without_schema_check_cx :
    "Trade" ∈ (assembleRow ["attendance_ratio_lkbk"] 1 2 3 4 5).keys ∧
    "Trade" ∉ (["attendance_ratio_lkbk"] : List String) := by
  constructor
  · simp +decide [assembleRow, initRow, initRowAux, Row.updateKey,
      Row.containsKey, Row.setKey, Row.keys, DEFAULT_TRADE, DEFAULT_DEPT]
  · decide

/-- C1, amended: for every schema `S` and every input state, the assembled
feature row's key set equals `S` together with the seven unconditionally
written names (the five behavioral columns plus "Trade" and "Dept"); role
columns are added even when absent from `S`, with no membership check. -/
theorem assembleRow_keys_iff (S : List String) (a h : ℚ) (z g : ℤ) (n : ℚ)
    (k : String) :
    k ∈ (assembleRow S a h z g n).keys ↔ k ∈ S ∨ k ∈ overwrittenNames := by
  simp only [assembleRow, Row.mem_keys_updateKey, mem_keys_initRow,
    overwrittenNames, List.mem_cons, List.not_mem_nil]
  tauto

/-- C2, counterexample: on the end-to-end scenario the assembled row does not
equal the six specified entries — an extra "Dept" key is written although
"Dept" is not in the schema — and the driver explainer returns 4 messages,
not 5: the long-gap message is absent because `gap_days = 21` does not
satisfy the strict `> 21` condition. -/
theorem scenario_row_and_drivers_cx :
    "Dept" ∈ (assembleRow scenarioSchema 0.55 25 4 21 0).keys ∧
    "Dept" ∉ scenarioSchema ∧
    (get_driver_messages 0.55 25 4 21 0).length = 4 ∧
    "Long gap since last worked, a strong signal of disengagement." ∉
      get_driver_messages 0.55 25 4 21 0 := by
  refine ⟨?_, by decide, ?_, ?_⟩
  · simp +decide [assembleRow, initRow, initRowAux, Row.updateKey,
      Row.containsKey, Row.setKey, Row.keys, DEFAULT_TRADE, DEFAULT_DEPT,
      scenarioSchema]
  · norm_num [get_driver_messages]
  · norm_num [get_driver_messages]
    decide

/-- C2, amended: on the scenario schema and inputs `(0.55, 25, 4, 21, 0)` the
assembled row holds the six specified entries followed by
`Dept ↦ "FIELD"`, and the driver explainer returns exactly the four
messages low-attendance, fewer-hours, multiple-zero-weeks and
no-unpaid-absence (the long-gap message is not produced at
`gap_days = 21`). -/
theorem scenario_row_and_drivers :
    assembleRow scenarioSchema 0.55 25 4 21 0 =
      [("attendance_ratio_lkbk", Value.num 0.55),
       ("avg_weekly_hours_lkbk", Value.num 25),
       ("zero_weeks_lkbk", Value.num 4),
       ("gap_days_since_work", Value.num 21),
       ("nonpaid_abs_hours_lkbk", Value.num 0),
       ("Trade", Value.str "CARP"),
       ("Dept", Value.str "FIELD")] ∧
    get_driver_messages 0.55 25 4 21 0 =
      ["Low attendance ratio compared to expected hours.",
       "Working substantially fewer hours than a typical full-time worker.",
       "Several zero-hour weeks, which often precede termination.",
       "No unpaid absence recorded."] := by
  constructor
  · simp +decide [assembleRow, initRow, initRowAux, Row.updateKey,
      Row.containsKey, Row.setKey, DEFAULT_TRADE, DEFAULT_DEPT, scenarioSchema]
  · norm_num [get_driver_messages]

/-- C3: the confidence labeler is total and evaluates its overlapping bands
with first-match precedence: `0.45 ≤ p ≤ 0.55` gives "Low";
`0.35 ≤ p ≤ 0.65` outside the Low band gives "Medium"; otherwise "High";
in particular the labels at 0.50, 0.40, 0.20 and 0.99 are "Low", "Medium",
"High" and "High". -/
theorem get_confidence_label_spec (p : ℚ) :
    (0.45 ≤ p ∧ p ≤ 0.55 → get_confidence_label p = "Low") ∧
    (0.35 ≤ p ∧ p ≤ 0.65 ∧ ¬(0.45 ≤ p ∧ p ≤ 0.55) →
      get_confidence_label p = "Medium") ∧
    (¬(0.45 ≤ p ∧ p ≤ 0.55) ∧ ¬(0.35 ≤ p ∧ p ≤ 0.65) →
      get_confidence_label p = "High") ∧
    (get_confidence_label p = "Low" ∨ get_confidence_label p = "Medium" ∨
      get_confidence_label p = "High") ∧
    get_confidence_label 0.50 = "Low" ∧
    get_confidence_label 0.40 = "Medium" ∧
    get_confidence_label 0.20 = "High" ∧
    get_confidence_label 0.99 = "High" := by
  refine ⟨?_, ?_, ?_, ?_, by norm_num [get_confidence_label],
    by norm_num [get_confidence_label], by norm_num [get_confidence_label],
    by norm_num [get_confidence_label]⟩ <;>
    unfold get_confidence_label <;> split_ifs <;> simp_all

/-- C3, witness: the Low band hypothesis holds at 0.50 and the theorem
yields the "Low" label there. -/
theorem get_confidence_label_spec_witness :
    ((0.45 : ℚ) ≤ 0.50 ∧ (0.50 : ℚ) ≤ 0.55) ∧
      get_confidence_label 0.50 = "Low" :=
  ⟨by norm_num, (get_confidence_label_spec 0.50).1 (by norm_num)⟩

/-- C4: every schema column other than the seven explicitly overwritten
names maps to its zero default in the assembled row, and the five fixed
behavioral columns always equal the corresponding input values, for every
schema and every input state. -/
theorem assembleRow_zero_default_and_overrides (S : List String) (a h : ℚ)
    (z g : ℤ) (n : ℚ) :
    (∀ k ∈ S, k ∉ overwrittenNames →
      (assembleRow S a h z g n).lookup k = some (Value.num 0)) ∧
    (assembleRow S a h z g n).lookup "attendance_ratio_lkbk" =
      some (Value.num a) ∧
    (assembleRow S a h z g n).lookup "avg_weekly_hours_lkbk" =
      some (Value.num h) ∧
    (assembleRow S a h z g n).lookup "zero_weeks_lkbk" =
      some (Value.num z) ∧
    (assembleRow S a h z g n).lookup "gap_days_since_work" =
      some (Value.num g) ∧
    (assembleRow S a h z g n).lookup "nonpaid_abs_hours_lkbk" =
      some (Value.num n) := by
  constructor
  · intro k hk hn
    simp only [overwrittenNames, List.mem_cons, List.not_mem_nil, or_false,
      not_or] at hn
    obtain ⟨h1, h2, h3, h4, h5, h6, h7⟩ := hn
    simp [assembleRow, Row.lookup_updateKey, h1, h2, h3, h4, h5, h6, h7,
      lookup_initRow_of_mem S k hk]
  · refine ⟨?_, ?_, ?_, ?_, ?_⟩ <;>
      simp +decide [assembleRow, Row.lookup_updateKey]

/-- C4, witness: on the one-column schema `["tenure_years"]` the
non-overwritten column "tenure_years" maps to zero. -/
theorem assembleRow_zero_default_and_overrides_witness :
    ("tenure_years" ∈ (["tenure_years"] : List String)) ∧
    ("tenure_years" ∉ overwrittenNames) ∧
    (assembleRow ["tenure_years"] 1 2 3 4 5).lookup "tenure_years" =
      some (Value.num 0) :=
  ⟨by decide, by decide,
    (assembleRow_zero_default_and_overrides ["tenure_years"] 1 2 3 4 5).1
      "tenure_years" (by decide) (by decide)⟩

/-- C5: with `avg_weekly_hours = 35` the driver explainer includes the
healthy-range message (inclusive boundary), and with `avg_weekly_hours = 32`
it includes neither the low-hours nor the healthy-range message, for every
choice of the other inputs. -/
theorem hours_boundary_exactness (a : ℚ) (z g : ℤ) (n : ℚ) :
    "Weekly hours are in a healthy full-time range." ∈
      get_driver_messages a 35 z g n ∧
    "Working substantially fewer hours than a typical full-time worker." ∉
      get_driver_messages a 32 z g n ∧
    "Weekly hours are in a healthy full-time range." ∉
      get_driver_messages a 32 z g n := by
  have h35 : hoursDrivers 35 =
      ["Weekly hours are in a healthy full-time range."] := by
    norm_num [hoursDrivers]
  have h32 : hoursDrivers 32 = [] := by norm_num [hoursDrivers]
  refine ⟨?_, ?_, ?_⟩
  · rw [get_driver_messages_decomp]
    simp [h35]
  · rw [get_driver_messages_decomp]
    simp only [h32, List.append_nil, List.nil_append, List.mem_append, not_or]
    refine ⟨⟨⟨fun hm => ?_, fun hm => ?_⟩, fun hm => ?_⟩, fun hm => ?_⟩
    · rcases mem_attendanceDrivers hm with h | h <;> simp_all
    · rcases mem_zeroWeeksDrivers hm with h | h | h <;> simp_all
    · rcases mem_gapDaysDrivers hm with h | h <;> simp_all
    · rcases mem_nonpaidAbsDrivers hm with h | h <;> simp_all
  · rw [get_driver_messages_decomp]
    simp only [h32, List.append_nil, List.nil_append, List.mem_append, not_or]
    refine ⟨⟨⟨fun hm => ?_, fun hm => ?_⟩, fun hm => ?_⟩, fun hm => ?_⟩
    · rcases mem_attendanceDrivers hm with h | h <;> simp_all
    · rcases mem_zeroWeeksDrivers hm with h | h | h <;> simp_all
    · rcases mem_gapDaysDrivers hm with h | h <;> simp_all
    · rcases mem_nonpaidAbsDrivers hm with h | h <;> simp_all

/-- C5, witness: the theorem instantiated at concrete remaining inputs. -/
theorem hours_boundary_exactness_witness :
    "Weekly hours are in a healthy full-time range." ∈
      get_driver_messages 0.9 35 0 0 4 :=
  (hours_boundary_exactness 0.9 0 0 4).1

/-- C6: the driver list is the concatenation, in fixed input order
(attendance, weekly hours, zero-weeks, gap-days, unpaid absence), of five
per-input contributions, each of length at most one, so the whole list
has at most five entries. -/
theorem get_driver_messages_structure (a h : ℚ) (z g : ℤ) (n : ℚ) :
    get_driver_messages a h z g n =
      attendanceDrivers a ++ hoursDrivers h ++ zeroWeeksDrivers z ++
        gapDaysDrivers g ++ nonpaidAbsDrivers n ∧
    (attendanceDrivers a).length ≤ 1 ∧ (hoursDrivers h).length ≤ 1 ∧
    (zeroWeeksDrivers z).length ≤ 1 ∧ (gapDaysDrivers g).length ≤ 1 ∧
    (nonpaidAbsDrivers n).length ≤ 1 ∧
    (get_driver_messages a h z g n).length ≤ 5 := by
  have hd := get_driver_messages_decomp a h z g n
  refine ⟨hd, length_attendanceDrivers a, length_hoursDrivers h,
    le_of_eq (length_zeroWeeksDrivers z), length_gapDaysDrivers g,
    length_nonpaidAbsDrivers n, ?_⟩
  rw [hd]
  simp only [List.length_append]
  have := length_attendanceDrivers a
  have := length_hoursDrivers h
  have := length_zeroWeeksDrivers z
  have := length_gapDaysDrivers g
  have := length_nonpaidAbsDrivers n
  omega

/-- C7: the derived binary label uses the fixed 0.50 threshold: the
prediction is "leave" exactly when `p ≥ 0.50` and "stay" otherwise. -/
theorem predicted_leave_threshold (p : ℚ) :
    (predicted_leave p = 1 ↔ 0.50 ≤ p) ∧
    (predicted_leave p = 0 ↔ p < 0.50) ∧
    (prediction_message p = "Likely to Leave / Terminate" ↔ 0.50 ≤ p) ∧
    (prediction_message p = "Likely to Stay" ↔ p < 0.50) := by
  by_cases hp : 0.50 ≤ p
  · simp +decide [predicted_leave, prediction_message, hp, not_le]
  · have hp' : p < 0.50 := lt_of_not_le hp
    simp +decide [predicted_leave, prediction_message, hp, hp', not_le]

/-- C8: the artifact loader fails with a MissingArtifact condition, surfacing
no model or schema, when the model file is absent, and likewise when the
schema file is absent; it returns the deserialized model together with the
schema exactly when both files exist. -/
theorem load_model_and_schema_spec {α β : Type} (fs : FileSystem α β) :
    (fs.modelFile = none →
      load_model_and_schema fs = .error (.missingArtifact
        ("Model not found: " ++ MODEL_PATH ++ ". Train/save it first."))) ∧
    (fs.schemaFile = none →
      ∃ msg, load_model_and_schema fs = .error (.missingArtifact msg)) ∧
    (∀ m s, fs.modelFile = some m → fs.schemaFile = some s →
      load_model_and_schema fs = .ok (m, s)) ∧
    (∀ m s, load_model_and_schema fs = .ok (m, s) →
      fs.modelFile = some m ∧ fs.schemaFile = some s) := by
  obtain ⟨mf, sf⟩ := fs
  cases mf <;> cases sf <;>
    simp [load_model_and_schema, MODEL_PATH, SCHEMA_PATH]

/-- C8, witness: the theorem applied to three concrete filesystems — model
missing, schema missing, and both present. -/
theorem load_model_and_schema_spec_witness :
    load_model_and_schema (⟨none, some 0⟩ : FileSystem ℕ ℕ) =
      .error (.missingArtifact
        ("Model not found: " ++ MODEL_PATH ++ ". Train/save it first.")) ∧
    (∃ msg, load_model_and_schema (⟨some 1, none⟩ : FileSystem ℕ ℕ) =
      .error (.missingArtifact msg)) ∧
    load_model_and_schema (⟨some 1, some 2⟩ : FileSystem ℕ ℕ) = .ok (1, 2) :=
  ⟨(load_model_and_schema_spec ⟨none, some 0⟩).1 rfl,
   (load_model_and_schema_spec ⟨some 1, none⟩).2.1 rfl,
   (load_model_and_schema_spec ⟨some 1, some 2⟩).2.2.1 1 2 rfl rfl⟩

/-- C9: for every schema and every input state the assembled row maps
"Trade" to the constant "CARP" and "Dept" to the constant "FIELD"; both
keys are always present, written without any schema-membership check. -/
theorem trade_dept_unconditional (S : List String) (a h : ℚ) (z g : ℤ)
    (n : ℚ) :
    (assembleRow S a h z g n).lookup "Trade" = some (Value.str "CARP") ∧
    (assembleRow S a h z g n).lookup "Dept" = some (Value.str "FIELD") ∧
    "Trade" ∈ (assembleRow S a h z g n).keys ∧
    "Dept" ∈ (assembleRow S a h z g n).keys := by
  refine ⟨?_, ?_, ?_, ?_⟩ <;>
    simp +decide [assembleRow, Row.lookup_updateKey, Row.mem_keys_updateKey,
      DEFAULT_TRADE, DEFAULT_DEPT]

/-- C10: the zero-hour-weeks chain always contributes exactly one message
(its conditional ends in an unconditional else branch), so for every input
tuple the driver explainer returns between 1 and 5 messages, never 0. -/
theorem get_driver_messages_nonempty (a h : ℚ) (z g : ℤ) (n : ℚ) :
    (zeroWeeksDrivers z).length = 1 ∧
    1 ≤ (get_driver_messages a h z g n).length ∧
    (get_driver_messages a h z g n).length ≤ 5 := by
  refine ⟨length_zeroWeeksDrivers z, ?_, ?_⟩ <;>
    rw [get_driver_messages_decomp] <;>
    simp only [List.length_append] <;>
    · have := length_attendanceDrivers a
      have := length_hoursDrivers h
      have := length_zeroWeeksDrivers z
      have := length_gapDaysDrivers g
      have := length_nonpaidAbsDrivers n
      omega
